import Mathlib

/-!
Verification of the replay orchestration logic of
`xla/tools/replay_computation.cc` (XLA computation replay harness).

The C++ tool is a thin orchestration layer over external collaborators
(client, backend, snapshot reader).  We embed it shallowly: the external
collaborators become fields of a `Client` record of Lean functions, the
fallible C++ calls (`StatusOr`, `Status`) become `Except Err` values, the
process-fatal checks (`CHECK`, `TF_CHECK_OK`, `ConsumeValueOrDie`) become a
distinguished `abort` outcome, and the observable effects needed by the
properties (execute calls, feed-worker pushes, report lines) are returned
as explicit traces.
-/

namespace ReplayTool

/-- Error payload of a failed `Status` / `StatusOr` (the status message). -/
abbrev Err := String

/-- An XLA shape, abstracted to its human-readable description
(`ShapeUtil::HumanString`). -/
structure Shape where
  desc : String
  deriving DecidableEq, Repr

/-- `ShapeUtil::HumanString` on the abstracted shape. -/
def humanString (s : Shape) : String := s.desc

/-- An in-memory `Literal`: a shape plus its textual rendering
(`Literal::ToString`). -/
structure Literal where
  shape : Shape
  text : String
  deriving DecidableEq, Repr

/-- A serialized `LiteralProto`.  `lit = none` models a proto on which
`Literal::CreateFromProto` fails. -/
structure LiteralProto where
  shape : Shape
  lit : Option Literal
  deriving DecidableEq, Repr

/-- A device-resident value handle (`GlobalData`), opaque to this core. -/
structure GlobalData where
  id : Nat
  deriving DecidableEq, Repr

/-- One instruction of a serialized HLO computation: its opcode string and
its shape. -/
structure Instruction where
  opcode : String
  shape : Shape
  deriving DecidableEq, Repr

/-- One computation of the serialized program (`HloComputationProto`). -/
structure ComputationProto where
  instructions : List Instruction
  deriving DecidableEq, Repr

/-- The handle returned by `Client::LoadSnapshot`; `computation.proto()`
exposes the list of computations, each with its instructions.
`numParameters` is the program's declared parameter count (part of the
program definition; the replay code itself never reads it). -/
structure Computation where
  computations : List ComputationProto
  numParameters : Nat
  deriving DecidableEq, Repr

/-- `snapshot.hlo().hlo_module()`: the serialized module, of which the
replay tool reads only the name. -/
structure HloModule where
  name : String
  deriving DecidableEq, Repr

/-- `snapshot.hlo()`. -/
structure Hlo where
  hlo_module : HloModule
  deriving DecidableEq, Repr

/-- An `HloSnapshot`: serialized program, recorded arguments, and the
optional recorded result (`has_result` is `result.isSome`). -/
structure HloSnapshot where
  hlo : Hlo
  arguments : List LiteralProto
  result : Option LiteralProto
  deriving DecidableEq, Repr

/-- The command-line `Options` struct of the tool (defaults as declared in
the C++ struct). -/
structure Options where
  fake_infeed_shape : String := ""
  generate_fake_infeed : Bool := false
  num_infeeds : Int := 10
  use_fake_data : Bool := false
  print_result : Bool := true
  num_runs : Int := 1
  xla_hlo_profile_last_run : Bool := false
  deriving DecidableEq, Repr

/-- The external collaborators consumed by the replay core, as a record of
oracles.  Execute-style calls are additionally indexed by the run number
and the feed pushes by the push number, so that distinct calls may have
distinct outcomes. -/
structure Client where
  /-- `Client::LoadSnapshot`. -/
  loadSnapshot : HloSnapshot → Except Err Computation
  /-- `MakeFakeArgumentsOrDie`: one synthetic device handle per unbound
  parameter of the computation. -/
  makeFakeArguments : Computation → List GlobalData
  /-- `Client::TransferToServer`. -/
  transferToServer : Literal → Except Err GlobalData
  /-- `ShapeUtil::ParseShapeString`; `none` models a parse failure. -/
  parseShape : String → Option Shape
  /-- `MakeFakeLiteral`; `none` models a generation failure. -/
  makeFakeLiteral : Shape → Option Literal
  /-- `Client::TransferToInfeed`, indexed by the push number. -/
  transferToInfeed : Nat → Literal → Except Err Unit
  /-- `Client::ExecuteAndTransfer`, indexed by run number; the `Bool` is
  whether `xla_hlo_profile` was set in the execution options. -/
  executeAndTransfer : Nat → Bool → List GlobalData → Except Err Literal
  /-- `Client::Execute` (no result transfer), same indexing. -/
  execute : Nat → Bool → List GlobalData → Except Err Unit

/-- `HloOpcodeString(HloOpcode::kInfeed)`. -/
def infeedOpcodeString : String := "infeed"

/-- The argument-provisioning loop over `module.arguments()`:
`Literal::CreateFromProto` then `Client::TransferToServer` for each
recorded argument, in order, propagating the first failure. -/
def transferRecorded (client : Client) : List LiteralProto → Except Err (List GlobalData)
  | [] => .ok []
  | p :: ps =>
    match p.lit with
    | none => .error "Literal.CreateFromProto failed"
    | some l =>
      match client.transferToServer l with
      | .error e => .error e
      | .ok d =>
        match transferRecorded client ps with
        | .error e => .error e
        | .ok ds => .ok (d :: ds)

/-- The Value Provisioner: fake arguments when `use_fake_data`, otherwise
the recorded arguments of the snapshot, transferred in order. -/
def provisionArguments (client : Client) (opts : Options) (module : HloSnapshot)
    (computation : Computation) : Except Err (List GlobalData) :=
  if opts.use_fake_data then
    .ok (client.makeFakeArguments computation)
  else
    transferRecorded client module.arguments

/-- Result of the infeed decision (lines 101–123 of the C++): no infeed,
infeed with a shape, or one of the two process-fatal checks
(`TF_CHECK_OK` on the shape parse, `CHECK(!provide_infeed)` on a second
infeed instruction). -/
inductive InfeedDecision where
  | noFeed
  | feed (s : Shape)
  | abortParse
  | abortAmbiguous
  deriving DecidableEq, Repr

/-- The scan of one flattened instruction list for infeed opcodes,
threading the `provide_infeed`/`infeed_shape` state exactly as the nested
C++ loops do: the `CHECK` fires on the second infeed instruction
encountered. -/
def scanInfeed : List Instruction → Option Shape → Except Unit (Option Shape)
  | [], acc => .ok acc
  | ins :: rest, acc =>
    if ins.opcode = infeedOpcodeString then
      match acc with
      | some _ => .error ()
      | none => scanInfeed rest (some ins.shape)
    else
      scanInfeed rest acc

/-- All instructions of the loaded computation, in scan order
(`for comp in computation.proto().computations(): for instruction in
comp.instructions()`). -/
def allInstructions (computation : Computation) : List Instruction :=
  (computation.computations.map ComputationProto.instructions).flatten

/-- The infeed decision: an explicit non-empty `fake_infeed_shape` wins
(fatal if it does not parse); else, if `generate_fake_infeed`, the
instruction scan decides (fatal if it finds two infeeds); else no infeed. -/
def infeedDecision (client : Client) (opts : Options) (computation : Computation) :
    InfeedDecision :=
  if !opts.fake_infeed_shape.isEmpty then
    match client.parseShape opts.fake_infeed_shape with
    | none => .abortParse
    | some s => .feed s
  else if opts.generate_fake_infeed then
    match scanInfeed (allInstructions computation) none with
    | .error () => .abortAmbiguous
    | .ok none => .noFeed
    | .ok (some s) => .feed s
  else
    .noFeed

/-- The push loop of the feed worker: `num_infeeds` iterations of
`TF_CHECK_OK(client->TransferToInfeed(*data))`, pushing the same literal
each time.  Returns the successful pushes in order and whether a failing
push aborted the worker. -/
def pushLoop (client : Client) (d : Literal) : Nat → Nat → List Literal × Bool
  | 0, _ => ([], false)
  | n + 1, i =>
    match client.transferToInfeed i d with
    | .error _ => ([], true)
    | .ok _ =>
      let rest := pushLoop client d n (i + 1)
      (d :: rest.1, rest.2)

/-- The body of the single scheduled feed worker: one `MakeFakeLiteral`
call (fatal on failure), then the push loop.  Returns the number of
generator calls made, the pushes performed, and whether the worker hit a
fatal check. -/
def feedWorker (client : Client) (infeedShape : Shape) (numInfeeds : Int) :
    Nat × List Literal × Bool :=
  match client.makeFakeLiteral infeedShape with
  | none => (1, [], true)
  | some d =>
    let r := pushLoop client d numInfeeds.toNat 0
    (1, r.1, r.2)

/-- Whether run `i` gets `xla_hlo_profile` in its execution options:
`opts.xla_hlo_profile_last_run && i == opts.num_runs - 1`. -/
def profileFlag (opts : Options) (i : Nat) : Bool :=
  opts.xla_hlo_profile_last_run && ((i : Int) == opts.num_runs - 1)

/-- The execution loop (`for i = 0; i < num_runs; ++i`), run `n` more
times starting at run index `i` with current `result`.  Returns the run
indices on which an execute call was issued, in order, and the final
`StatusOr` outcome: the first execute failure aborts the remaining runs. -/
def runLoop (client : Client) (opts : Options) (args : List GlobalData) :
    Nat → Nat → Option Literal → List Nat × Except Err (Option Literal)
  | 0, _, result => ([], .ok result)
  | n + 1, i, result =>
    if opts.print_result then
      match client.executeAndTransfer i (profileFlag opts i) args with
      | .error e => ([i], .error e)
      | .ok lit =>
        let rest := runLoop client opts args n (i + 1) (some lit)
        (i :: rest.1, rest.2)
    else
      match client.execute i (profileFlag opts i) args with
      | .error e => ([i], .error e)
      | .ok _ =>
        let rest := runLoop client opts args n (i + 1) result
        (i :: rest.1, rest.2)

/-- Outcome of one `ReplayComputation` call: a process abort from a fatal
check, a propagated `Status` error, or success with the optional final
result (`nullptr` when no run retrieved a result). -/
inductive ROutcome where
  | abort
  | error (e : Err)
  | ok (result : Option Literal)
  deriving DecidableEq, Repr

/-- Observable side effects of one `ReplayComputation` call. -/
structure ReplayTrace where
  /-- Run indices at which an execute call was issued, in issue order. -/
  executeRuns : List Nat := []
  /-- Whether the single feed worker was scheduled on the thread pool. -/
  workerLaunched : Bool := false
  /-- Number of `MakeFakeLiteral` calls made by the worker. -/
  workerGenCalls : Nat := 0
  /-- Literals pushed to the infeed by the worker, in push order. -/
  workerPushes : List Literal := []
  /-- Whether the worker hit one of its fatal checks. -/
  workerAborted : Bool := false
  deriving DecidableEq, Repr

/-- `ReplayComputation` (lines 83–181): load the snapshot, provision
arguments, decide the infeed, schedule the worker when an infeed is
provided, and run the execution loop, returning the last run's result. -/
def ReplayComputation (client : Client) (module : HloSnapshot) (opts : Options) :
    ROutcome × ReplayTrace :=
  match client.loadSnapshot module with
  | .error e => (.error e, {})
  | .ok computation =>
    match provisionArguments client opts module computation with
    | .error e => (.error e, {})
    | .ok arguments =>
      match infeedDecision client opts computation with
      | .abortParse => (.abort, {})
      | .abortAmbiguous => (.abort, {})
      | .noFeed =>
        let r := runLoop client opts arguments opts.num_runs.toNat 0 none
        (match r.2 with
          | .error e => .error e
          | .ok res => .ok res,
         { executeRuns := r.1 })
      | .feed s =>
        let w := feedWorker client s opts.num_infeeds
        let r := runLoop client opts arguments opts.num_runs.toNat 0 none
        (match r.2 with
          | .error e => .error e
          | .ok res => .ok res,
         { executeRuns := r.1, workerLaunched := true, workerGenCalls := w.1,
           workerPushes := w.2.1, workerAborted := w.2.2 })

/-- The stdout report line for a computed result:
`file_path: computation_name :: type:literal_str`. -/
def computedLine (path : String) (module : HloSnapshot) (result : Literal) : String :=
  path ++ ": " ++ module.hlo.hlo_module.name ++ " :: " ++
    humanString result.shape ++ ":" ++ result.text

/-- The stdout line for the recorded expected result:
`was type:literal_str` (shape taken from the proto, text from the
deserialized literal). -/
def wasLine (p : LiteralProto) (l : Literal) : String :=
  "was " ++ humanString p.shape ++ ":" ++ l.text

/-- One input file of the batch: its path together with the outcome of
`tensorflow::ReadBinaryProto` on it. -/
abbrev FileInput := String × Except Err HloSnapshot

/-- What processing one file does, short of a process abort: whether it
raised the failure exit status, its stdout report lines, and its stderr
error lines. -/
def processFile (client : Client) (opts : Options) (f : FileInput) :
    Option (Bool × List String × List String) :=
  match f.2 with
  | .error st => some (false, [], [f.1 ++ ": is not HloSnapshot: " ++ st ++ "."])
  | .ok snapshot =>
    match ReplayComputation client snapshot opts with
    | (.abort, _) => none
    | (.error e, _) => some (true, [], [f.1 ++ ": error: " ++ e])
    | (.ok none, _) => some (false, [], [])
    | (.ok (some result), _) =>
      match snapshot.result with
      | none => some (false, [computedLine f.1 snapshot result], [])
      | some p =>
        match p.lit with
        | none => none
        | some l => some (false, [computedLine f.1 snapshot result, wasLine p l], [])

/-- Result of the whole invocation: a process abort from a fatal check, or
normal termination with the exit status, stdout report lines, and stderr
error lines. -/
inductive MainResult where
  | aborted
  | finished (exitStatus : Nat) (stdout : List String) (stderr : List String)
  deriving DecidableEq, Repr

/-- The batch loop of `RealMain`, carrying the current exit status. -/
def mainLoop (client : Client) (opts : Options) : List FileInput → Nat → MainResult
  | [], e => .finished e [] []
  | f :: fs, e =>
    match processFile client opts f with
    | none => .aborted
    | some r =>
      match mainLoop client opts fs (if r.1 then 1 else e) with
      | .aborted => .aborted
      | .finished e2 out2 err2 => .finished e2 (r.2.1 ++ out2) (r.2.2 ++ err2)

/-- `RealMain` (lines 183–222): process every file in order, starting from
`EXIT_SUCCESS` (0); a replay error sets the exit status to `EXIT_FAILURE`
(1). -/
def RealMain (client : Client) (files : List FileInput) (opts : Options) : MainResult :=
  mainLoop client opts files 0

/-! ### Concrete instances used by the witnesses and counterexamples -/

/-- A sample shape. -/
def wShape : Shape := ⟨"f32[2]"⟩

/-- A sample literal of shape `wShape`. -/
def wLitA : Literal := ⟨wShape, "[1, 2]"⟩

/-- A sample loaded computation with one non-infeed instruction and no
parameters. -/
def wComp : Computation := ⟨[⟨[⟨"add", wShape⟩]⟩], 0⟩

/-- A sample snapshot with no recorded arguments and no recorded result. -/
def wSnapshot : HloSnapshot := ⟨⟨⟨"module_0"⟩⟩, [], none⟩

/-- A sample client on which every call succeeds. -/
def wClient : Client where
  loadSnapshot := fun _ => .ok wComp
  makeFakeArguments := fun _ => []
  transferToServer := fun _ => .ok ⟨0⟩
  parseShape := fun _ => some wShape
  makeFakeLiteral := fun _ => some wLitA
  transferToInfeed := fun _ _ => .ok ()
  executeAndTransfer := fun _ _ _ => .ok wLitA
  execute := fun _ _ _ => .ok ()

/-- Options asking for two runs. -/
def wOptsTwoRuns : Options := { num_runs := 2 }

/-! ### Helper lemmas about the execution loop -/

theorem runLoop_print_ok (client : Client) (opts : Options) (args : List GlobalData)
    (v : Nat → Literal) (hp : opts.print_result = true)
    (hT : ∀ i, client.executeAndTransfer i (profileFlag opts i) args = Except.ok (v i)) :
    ∀ (n i : Nat) (r0 : Option Literal), 1 ≤ n →
      runLoop client opts args n i r0 =
        (List.range' i n, Except.ok (some (v (i + n - 1)))) := by
  intro n
  induction n with
  | zero => intro i r0 h; exact absurd h (by omega)
  | succ n ih =>
    intro i r0 _
    rcases Nat.eq_zero_or_pos n with h0 | h0
    · subst h0
      simp [runLoop, hp, hT i, List.range'_succ]
    · have hrec := ih (i + 1) (some (v i)) h0
      simp only [runLoop, hp, if_true, hT i, hrec]
      have harg : i + 1 + n - 1 = i + (n + 1) - 1 := by omega
      simp [List.range'_succ, harg]

theorem runLoop_noprint_ok (client : Client) (opts : Options) (args : List GlobalData)
    (hp : opts.print_result = false)
    (hU : ∀ i, client.execute i (profileFlag opts i) args = Except.ok ()) :
    ∀ (n i : Nat) (r0 : Option Literal),
      runLoop client opts args n i r0 = (List.range' i n, Except.ok r0) := by
  intro n
  induction n with
  | zero => intro i r0; simp [runLoop]
  | succ n ih =>
    intro i r0
    simp [runLoop, hp, hU i, ih (i + 1) r0, List.range'_succ]

theorem runLoop_noprint_result (client : Client) (opts : Options) (args : List GlobalData)
    (hp : opts.print_result = false) :
    ∀ (n i : Nat) (r0 r : Option Literal),
      (runLoop client opts args n i r0).2 = Except.ok r → r = r0 := by
  intro n
  induction n with
  | zero =>
    intro i r0 r h
    simp [runLoop] at h
    exact h.symm
  | succ n ih =>
    intro i r0 r h
    cases hx : client.execute i (profileFlag opts i) args with
    | error e => simp [runLoop, hp, hx] at h
    | ok u => simp [runLoop, hp, hx] at h; exact ih (i + 1) r0 r h

/-! ### C1 -/

/-- C1: for `num_runs = N ≥ 1` on a backend where every execute call
succeeds (and a snapshot that loads, provisions and decides its infeed
without a fatal check), `ReplayComputation` issues exactly `N` execute
calls, in run order `0, …, N-1`, and returns precisely the `N`-th call's
result (the retrieved value when `print_result`, nothing otherwise);
results of earlier runs are not retained. -/
theorem C1_replay_runs_num_runs_times_returns_last
    (client : Client) (module : HloSnapshot) (opts : Options) (N : Int)
    (hN : 1 ≤ N) (hruns : opts.num_runs = N)
    (computation : Computation)
    (hload : client.loadSnapshot module = Except.ok computation)
    (args : List GlobalData)
    (hprov : provisionArguments client opts module computation = Except.ok args)
    (hd1 : infeedDecision client opts computation ≠ InfeedDecision.abortParse)
    (hd2 : infeedDecision client opts computation ≠ InfeedDecision.abortAmbiguous)
    (v : Nat → Literal)
    (hT : ∀ i, client.executeAndTransfer i (profileFlag opts i) args = Except.ok (v i))
    (hU : ∀ i, client.execute i (profileFlag opts i) args = Except.ok ()) :
    (ReplayComputation client module opts).2.executeRuns = List.range N.toNat ∧
    (ReplayComputation client module opts).1 =
      ROutcome.ok (if opts.print_result then some (v (N.toNat - 1)) else none) := by
  have hn1 : 1 ≤ N.toNat := by omega
  have hloop : runLoop client opts args opts.num_runs.toNat 0 none =
      (List.range N.toNat,
       Except.ok (if opts.print_result then some (v (N.toNat - 1)) else none)) := by
    cases hp : opts.print_result with
    | true =>
      rw [hruns, runLoop_print_ok client opts args v hp hT N.toNat 0 none hn1]
      simp [List.range_eq_range']
    | false =>
      rw [hruns, runLoop_noprint_ok client opts args hp hU N.toNat 0 none]
      simp [List.range_eq_range']
  cases hdec : infeedDecision client opts computation with
  | abortParse => exact absurd hdec hd1
  | abortAmbiguous => exact absurd hdec hd2
  | noFeed =>
    simp [ReplayComputation, hload, hprov, hdec, hloop]
  | feed s =>
    simp [ReplayComputation, hload, hprov, hdec, hloop]

/-- Witness for C1 at `num_runs = 2` on the all-succeeding sample client:
both conclusions evaluate on the concrete input. -/
theorem C1_replay_runs_num_runs_times_returns_last_witness :
    (ReplayComputation wClient wSnapshot wOptsTwoRuns).2.executeRuns = List.range 2 ∧
    (ReplayComputation wClient wSnapshot wOptsTwoRuns).1 = ROutcome.ok (some wLitA) := by
  have h := C1_replay_runs_num_runs_times_returns_last wClient wSnapshot wOptsTwoRuns 2
    (by decide) rfl wComp rfl [] rfl (by decide) (by decide)
    (fun _ => wLitA) (fun _ => rfl) (fun _ => rfl)
  simpa using h

/-! ### Helper lemmas about `processFile` and the batch loop -/

theorem processFile_of_outcome_ok_none (client : Client) (opts : Options)
    (path : String) (module : HloSnapshot)
    (h : (ReplayComputation client module opts).1 = ROutcome.ok none) :
    processFile client opts (path, Except.ok module) = some (false, [], []) := by
  cases hrc : ReplayComputation client module opts with
  | mk o t =>
    rw [hrc] at h
    simp at h
    subst h
    simp [processFile, hrc]

theorem processFile_of_outcome_error (client : Client) (opts : Options)
    (path : String) (module : HloSnapshot) (e : Err)
    (h : (ReplayComputation client module opts).1 = ROutcome.error e) :
    processFile client opts (path, Except.ok module) =
      some (true, [], [path ++ ": error: " ++ e]) := by
  cases hrc : ReplayComputation client module opts with
  | mk o t =>
    rw [hrc] at h
    simp at h
    subst h
    simp [processFile, hrc]

theorem processFile_of_outcome_abort (client : Client) (opts : Options)
    (path : String) (module : HloSnapshot)
    (h : (ReplayComputation client module opts).1 = ROutcome.abort) :
    processFile client opts (path, Except.ok module) = none := by
  cases hrc : ReplayComputation client module opts with
  | mk o t =>
    rw [hrc] at h
    simp at h
    subst h
    simp [processFile, hrc]

/-! ### C6 -/

theorem replay_noprint_result_none (client : Client) (module : HloSnapshot)
    (opts : Options) (hpr : opts.print_result = false) :
    ∀ r, (ReplayComputation client module opts).1 = ROutcome.ok r → r = none := by
  intro r h
  cases hl : client.loadSnapshot module with
  | error e => simp [ReplayComputation, hl] at h
  | ok computation =>
    cases hp : provisionArguments client opts module computation with
    | error e => simp [ReplayComputation, hl, hp] at h
    | ok args =>
      cases hd : infeedDecision client opts computation with
      | abortParse => simp [ReplayComputation, hl, hp, hd] at h
      | abortAmbiguous => simp [ReplayComputation, hl, hp, hd] at h
      | noFeed =>
        cases hr : (runLoop client opts args opts.num_runs.toNat 0 none).2 with
        | error e => simp [ReplayComputation, hl, hp, hd, hr] at h
        | ok res =>
          simp [ReplayComputation, hl, hp, hd, hr] at h
          subst h
          exact runLoop_noprint_result client opts args hpr _ 0 none _ hr
      | feed s =>
        cases hr : (runLoop client opts args opts.num_runs.toNat 0 none).2 with
        | error e => simp [ReplayComputation, hl, hp, hd, hr] at h
        | ok res =>
          simp [ReplayComputation, hl, hp, hd, hr] at h
          subst h
          exact runLoop_noprint_result client opts args hpr _ 0 none _ hr

theorem processFile_stdout_nil_of_noprint (client : Client) (opts : Options)
    (hpr : opts.print_result = false) (f : FileInput)
    (r : Bool × List String × List String)
    (h : processFile client opts f = some r) : r.2.1 = [] := by
  obtain ⟨path, read⟩ := f
  cases read with
  | error st =>
    simp [processFile] at h
    rw [← h]
  | ok snapshot =>
    cases hrc : ReplayComputation client snapshot opts with
    | mk o t =>
      cases o with
      | abort => simp [processFile, hrc] at h
      | error e => simp [processFile, hrc] at h; rw [← h]
      | ok res =>
        cases res with
        | none => simp [processFile, hrc] at h; rw [← h]
        | some lit =>
          have hnone : some lit = (none : Option Literal) :=
            replay_noprint_result_none client snapshot opts hpr (some lit) (by rw [hrc])
          simp at hnone

theorem mainLoop_stdout_nil_of_noprint (client : Client) (opts : Options)
    (hpr : opts.print_result = false) :
    ∀ (files : List FileInput) (e0 e : Nat) (out err : List String),
      mainLoop client opts files e0 = MainResult.finished e out err → out = [] := by
  intro files
  induction files with
  | nil =>
    intro e0 e out err h
    simp [mainLoop] at h
    exact h.2.1
  | cons f fs ih =>
    intro e0 e out err h
    cases hpf : processFile client opts f with
    | none => simp [mainLoop, hpf] at h
    | some r =>
      cases hml : mainLoop client opts fs (if r.1 then 1 else e0) with
      | aborted => simp [mainLoop, hpf, hml] at h
      | finished e2 out2 err2 =>
        simp [mainLoop, hpf, hml] at h
        have h1 := processFile_stdout_nil_of_noprint client opts hpr f r hpf
        have h2 := ih (if r.1 then 1 else e0) e2 out2 err2 hml
        rw [← h.2.1, h1, h2]
        simp

/-- C6: with `print_result = false` the replay executes without retrieving
any output: a successful `ReplayComputation` returns the absent result,
for every `num_runs`, and consequently the invocation prints no
computed-result report line (stdout of `RealMain` is empty). -/
theorem C6_noprint_returns_no_result
    (client : Client) (module : HloSnapshot) (opts : Options) (files : List FileInput)
    (hpr : opts.print_result = false) :
    (∀ r, (ReplayComputation client module opts).1 = ROutcome.ok r → r = none) ∧
    (∀ e out err, RealMain client files opts = MainResult.finished e out err → out = []) :=
  ⟨replay_noprint_result_none client module opts hpr,
   fun e out err h => mainLoop_stdout_nil_of_noprint client opts hpr files 0 e out err h⟩

/-- Options disabling result retrieval, with several runs. -/
def wOptsNoPrint : Options := { print_result := false, num_runs := 3 }

/-- Witness for C6 on the sample client with three runs: the replay
succeeds with an absent result and the one-file batch prints nothing. -/
theorem C6_noprint_returns_no_result_witness :
    (ReplayComputation wClient wSnapshot wOptsNoPrint).1 = ROutcome.ok none ∧
    RealMain wClient [("a", Except.ok wSnapshot)] wOptsNoPrint =
      MainResult.finished 0 [] [] := by
  have h := C6_noprint_returns_no_result wClient wSnapshot wOptsNoPrint
    [("a", Except.ok wSnapshot)] rfl
  have hex : ∃ r, (ReplayComputation wClient wSnapshot wOptsNoPrint).1 = ROutcome.ok r :=
    ⟨none, by decide⟩
  obtain ⟨r, hr⟩ := hex
  have hnone := h.1 r hr
  subst hnone
  refine ⟨hr, ?_⟩
  have hmain : RealMain wClient [("a", Except.ok wSnapshot)] wOptsNoPrint =
      MainResult.finished 0 [] [] := by decide
  have := h.2 0 [] [] hmain
  exact hmain

/-! ### C7 -/

/-- C7: with `use_fake_data = true` the Value Provisioner never reads the
snapshot's recorded arguments: its output on two snapshots differing only
in `arguments` is identical. -/
theorem C7_fake_data_ignores_recorded_arguments
    (client : Client) (opts : Options) (module : HloSnapshot)
    (computation : Computation) (args2 : List LiteralProto)
    (h : opts.use_fake_data = true) :
    provisionArguments client opts { module with arguments := args2 } computation =
      provisionArguments client opts module computation := by
  simp [provisionArguments, h]

/-- Options selecting fake data. -/
def wOptsFake : Options := { use_fake_data := true }

/-- Witness for C7: the empty-argument sample snapshot and the same
snapshot with one recorded argument provision identically under fake
data. -/
theorem C7_fake_data_ignores_recorded_arguments_witness :
    provisionArguments wClient wOptsFake
        { wSnapshot with arguments := [⟨wShape, some wLitA⟩] } wComp =
      provisionArguments wClient wOptsFake wSnapshot wComp :=
  C7_fake_data_ignores_recorded_arguments wClient wOptsFake wSnapshot wComp
    [⟨wShape, some wLitA⟩] rfl

/-! ### C10 -/

/-- C10: `num_runs ≥ 1` is never validated: for `num_runs ≤ 0` the loop
body never runs, so a replay whose setup succeeds issues zero execute
calls and returns success with the absent result — not an error — and the
file gets no report line. -/
theorem C10_nonpositive_num_runs_returns_success_without_running
    (client : Client) (module : HloSnapshot) (opts : Options)
    (computation : Computation)
    (hload : client.loadSnapshot module = Except.ok computation)
    (args : List GlobalData)
    (hprov : provisionArguments client opts module computation = Except.ok args)
    (hd1 : infeedDecision client opts computation ≠ InfeedDecision.abortParse)
    (hd2 : infeedDecision client opts computation ≠ InfeedDecision.abortAmbiguous)
    (hn : opts.num_runs ≤ 0) :
    (ReplayComputation client module opts).1 = ROutcome.ok none ∧
    (ReplayComputation client module opts).2.executeRuns = [] ∧
    ∀ path, processFile client opts (path, Except.ok module) = some (false, [], []) := by
  have htn : opts.num_runs.toNat = 0 := by omega
  have hloop : runLoop client opts args opts.num_runs.toNat 0 none = ([], Except.ok none) := by
    rw [htn]
    rfl
  have hout : (ReplayComputation client module opts).1 = ROutcome.ok none ∧
      (ReplayComputation client module opts).2.executeRuns = [] := by
    cases hdec : infeedDecision client opts computation with
    | abortParse => exact absurd hdec hd1
    | abortAmbiguous => exact absurd hdec hd2
    | noFeed => simp [ReplayComputation, hload, hprov, hdec, hloop]
    | feed s => simp [ReplayComputation, hload, hprov, hdec, hloop]
  exact ⟨hout.1, hout.2,
    fun path => processFile_of_outcome_ok_none client opts path module hout.1⟩

/-- Options with a negative `num_runs`. -/
def wOptsNegRuns : Options := { num_runs := -1 }

/-- Witness for C10 at `num_runs = -1` on the sample client. -/
theorem C10_nonpositive_num_runs_returns_success_without_running_witness :
    (ReplayComputation wClient wSnapshot wOptsNegRuns).1 = ROutcome.ok none ∧
    (ReplayComputation wClient wSnapshot wOptsNegRuns).2.executeRuns = [] ∧
    processFile wClient wOptsNegRuns ("a", Except.ok wSnapshot) = some (false, [], []) := by
  have h := C10_nonpositive_num_runs_returns_success_without_running wClient wSnapshot
    wOptsNegRuns wComp rfl [] rfl (by decide) (by decide) (by decide)
  exact ⟨h.1, h.2.1, h.2.2 "a"⟩

/-! ### C3 -/

theorem pushLoop_ok (client : Client) (d : Literal)
    (hpush : ∀ i, client.transferToInfeed i d = Except.ok ()) :
    ∀ (n i : Nat), pushLoop client d n i = (List.replicate n d, false) := by
  intro n
  induction n with
  | zero => intro i; rfl
  | succ n ih => intro i; simp [pushLoop, hpush i, ih (i + 1), List.replicate_succ]

/-- C3: when the infeed decision requires streaming, exactly one feed
worker is scheduled; it calls the synthetic-value generator exactly once
and then pushes that same value into the infeed exactly
`num_infeeds` times, sequentially and in order, terminating without a
fatal check when generation and every push succeed. -/
theorem C3_feed_worker_generates_once_pushes_num_infeeds
    (client : Client) (module : HloSnapshot) (opts : Options)
    (computation : Computation)
    (hload : client.loadSnapshot module = Except.ok computation)
    (args : List GlobalData)
    (hprov : provisionArguments client opts module computation = Except.ok args)
    (s : Shape)
    (hdec : infeedDecision client opts computation = InfeedDecision.feed s)
    (d : Literal) (hgen : client.makeFakeLiteral s = some d)
    (hpush : ∀ i, client.transferToInfeed i d = Except.ok ()) :
    (ReplayComputation client module opts).2.workerLaunched = true ∧
    (ReplayComputation client module opts).2.workerGenCalls = 1 ∧
    (ReplayComputation client module opts).2.workerPushes =
      List.replicate opts.num_infeeds.toNat d ∧
    (ReplayComputation client module opts).2.workerAborted = false := by
  have hw : feedWorker client s opts.num_infeeds =
      (1, List.replicate opts.num_infeeds.toNat d, false) := by
    simp [feedWorker, hgen, pushLoop_ok client d hpush]
  simp [ReplayComputation, hload, hprov, hdec, hw]

/-- Options with an explicit infeed shape and five pushes. -/
def wOptsFeed5 : Options := { fake_infeed_shape := "f32[2]", num_infeeds := 5 }

/-- Witness for C3 at `num_infeeds = 5`: exactly five ordered pushes of
the one generated literal occur. -/
theorem C3_feed_worker_generates_once_pushes_num_infeeds_witness :
    (ReplayComputation wClient wSnapshot wOptsFeed5).2.workerLaunched = true ∧
    (ReplayComputation wClient wSnapshot wOptsFeed5).2.workerGenCalls = 1 ∧
    (ReplayComputation wClient wSnapshot wOptsFeed5).2.workerPushes =
      List.replicate 5 wLitA ∧
    (ReplayComputation wClient wSnapshot wOptsFeed5).2.workerAborted = false := by
  have h := C3_feed_worker_generates_once_pushes_num_infeeds wClient wSnapshot wOptsFeed5
    wComp rfl [] rfl wShape (by decide) wLitA rfl (fun _ => rfl)
  simpa using h

/-! ### C9 -/

/-- C9: a non-empty `fake_infeed_shape` that fails to parse is not a
recoverable per-file error: the parse status is checked by a fatal
assertion, so the replay outcome is a process abort (never a propagated
error), the file's processing yields no per-file error record, and a batch
starting with such a file aborts the whole invocation instead of
continuing. -/
theorem C9_malformed_infeed_shape_override_aborts_process
    (client : Client) (module : HloSnapshot) (opts : Options)
    (computation : Computation)
    (hload : client.loadSnapshot module = Except.ok computation)
    (args : List GlobalData)
    (hprov : provisionArguments client opts module computation = Except.ok args)
    (hne : opts.fake_infeed_shape.isEmpty = false)
    (hparse : client.parseShape opts.fake_infeed_shape = none) :
    (ReplayComputation client module opts).1 = ROutcome.abort ∧
    (∀ e, (ReplayComputation client module opts).1 ≠ ROutcome.error e) ∧
    (∀ path, processFile client opts (path, Except.ok module) = none) ∧
    (∀ path rest, RealMain client ((path, Except.ok module) :: rest) opts =
      MainResult.aborted) := by
  have hdec : infeedDecision client opts computation = InfeedDecision.abortParse := by
    simp [infeedDecision, hne, hparse]
  have habort : (ReplayComputation client module opts).1 = ROutcome.abort := by
    simp [ReplayComputation, hload, hprov, hdec]
  refine ⟨habort, ?_, ?_, ?_⟩
  · intro e hcontra
    rw [habort] at hcontra
    exact ROutcome.noConfusion hcontra
  · intro path
    exact processFile_of_outcome_abort client opts path module habort
  · intro path rest
    have hpf := processFile_of_outcome_abort client opts path module habort
    simp [RealMain, mainLoop, hpf]

/-- A client on which every shape-string parse fails. -/
def c9Client : Client := { wClient with parseShape := fun _ => none }

/-- Options with a malformed explicit infeed shape. -/
def wOptsBadShape : Options := { fake_infeed_shape := "bogus" }

/-- Witness for C9: a concrete malformed override aborts the process,
even with a second file pending in the batch. -/
theorem C9_malformed_infeed_shape_override_aborts_process_witness :
    (ReplayComputation c9Client wSnapshot wOptsBadShape).1 = ROutcome.abort ∧
    processFile c9Client wOptsBadShape ("a", Except.ok wSnapshot) = none ∧
    RealMain c9Client [("a", Except.ok wSnapshot), ("b", Except.ok wSnapshot)]
      wOptsBadShape = MainResult.aborted := by
  have h := C9_malformed_infeed_shape_override_aborts_process c9Client wSnapshot
    wOptsBadShape wComp rfl [] rfl (by decide) rfl
  exact ⟨h.1, h.2.2.1 "a", h.2.2.2 "a" [("b", Except.ok wSnapshot)]⟩

/-! ### C2 -/

/-- Number of infeed instructions in an instruction list. -/
def countInfeed : List Instruction → Nat
  | [] => 0
  | ins :: rest => (if ins.opcode = infeedOpcodeString then 1 else 0) + countInfeed rest

theorem scanInfeed_of_count_zero :
    ∀ (l : List Instruction), countInfeed l = 0 →
      ∀ acc, scanInfeed l acc = Except.ok acc := by
  intro l
  induction l with
  | nil => intro _ acc; rfl
  | cons ins rest ih =>
    intro h acc
    by_cases hop : ins.opcode = infeedOpcodeString
    · simp [countInfeed, hop] at h
    · have hrest : countInfeed rest = 0 := by simpa [countInfeed, hop] using h
      simp [scanInfeed, hop, ih hrest acc]

theorem scanInfeed_some_of_count_pos :
    ∀ (l : List Instruction), 1 ≤ countInfeed l →
      ∀ s, scanInfeed l (some s) = Except.error () := by
  intro l
  induction l with
  | nil => intro h; simp [countInfeed] at h
  | cons ins rest ih =>
    intro h s
    by_cases hop : ins.opcode = infeedOpcodeString
    · simp [scanInfeed, hop]
    · have hrest : 1 ≤ countInfeed rest := by simpa [countInfeed, hop] using h
      simp [scanInfeed, hop, ih hrest s]

theorem scanInfeed_of_count_one :
    ∀ (l : List Instruction), countInfeed l = 1 →
      ∃ ins, ins ∈ l ∧ ins.opcode = infeedOpcodeString ∧
        scanInfeed l none = Except.ok (some ins.shape) := by
  intro l
  induction l with
  | nil => intro h; simp [countInfeed] at h
  | cons ins rest ih =>
    intro h
    by_cases hop : ins.opcode = infeedOpcodeString
    · have hrest : countInfeed rest = 0 := by
        have := h
        simp [countInfeed, hop] at this
        omega
      refine ⟨ins, by simp, hop, ?_⟩
      simp [scanInfeed, hop, scanInfeed_of_count_zero rest hrest (some ins.shape)]
    · have hrest : countInfeed rest = 1 := by simpa [countInfeed, hop] using h
      obtain ⟨ins2, hmem, hop2, hscan⟩ := ih hrest
      exact ⟨ins2, by simp [hmem], hop2, by simp [scanInfeed, hop, hscan]⟩

theorem scanInfeed_of_count_ge_two :
    ∀ (l : List Instruction), 2 ≤ countInfeed l →
      scanInfeed l none = Except.error () := by
  intro l
  induction l with
  | nil => intro h; simp [countInfeed] at h
  | cons ins rest ih =>
    intro h
    by_cases hop : ins.opcode = infeedOpcodeString
    · have hrest : 1 ≤ countInfeed rest := by
        have := h
        simp [countInfeed, hop] at this
        omega
      simp [scanInfeed, hop, scanInfeed_some_of_count_pos rest hrest ins.shape]
    · have hrest : 2 ≤ countInfeed rest := by simpa [countInfeed, hop] using h
      simp [scanInfeed, hop, ih hrest]

/-- C2 (amended): the streaming-feed decision.  A non-empty parseable
explicit shape override forces the feed with that shape, for every
program (inference is not consulted).  Otherwise, with shape inference
requested, zero infeed instructions mean no feed; exactly one means a
feed with that instruction's shape; two or more fail a fatal check that
aborts the entire process — the file's processing yields no per-file
error record, so the batch does not continue.  With neither override nor
inference, no feed; and whenever the decision is "no feed" no worker is
launched. -/
theorem C2_streaming_decision
    (client : Client) (opts : Options) (module : HloSnapshot) (computation : Computation)
    (hload : client.loadSnapshot module = Except.ok computation)
    (args : List GlobalData)
    (hprov : provisionArguments client opts module computation = Except.ok args) :
    (opts.fake_infeed_shape.isEmpty = false →
      ∀ s, client.parseShape opts.fake_infeed_shape = some s →
        infeedDecision client opts computation = InfeedDecision.feed s) ∧
    (opts.fake_infeed_shape.isEmpty = true → opts.generate_fake_infeed = true →
      (countInfeed (allInstructions computation) = 0 →
        infeedDecision client opts computation = InfeedDecision.noFeed) ∧
      (countInfeed (allInstructions computation) = 1 →
        ∃ ins, ins ∈ allInstructions computation ∧
          ins.opcode = infeedOpcodeString ∧
          infeedDecision client opts computation = InfeedDecision.feed ins.shape) ∧
      (2 ≤ countInfeed (allInstructions computation) →
        (ReplayComputation client module opts).1 = ROutcome.abort ∧
        ∀ path, processFile client opts (path, Except.ok module) = none)) ∧
    (opts.fake_infeed_shape.isEmpty = true → opts.generate_fake_infeed = false →
      infeedDecision client opts computation = InfeedDecision.noFeed) ∧
    (infeedDecision client opts computation = InfeedDecision.noFeed →
      (ReplayComputation client module opts).2.workerLaunched = false) := by
  refine ⟨?_, ?_, ?_, ?_⟩
  · intro hne s hp
    simp [infeedDecision, hne, hp]
  · intro hemp hgen
    refine ⟨?_, ?_, ?_⟩
    · intro hc
      simp [infeedDecision, hemp, hgen,
        scanInfeed_of_count_zero (allInstructions computation) hc none]
    · intro hc
      obtain ⟨ins, hmem, hop, hscan⟩ :=
        scanInfeed_of_count_one (allInstructions computation) hc
      exact ⟨ins, hmem, hop, by simp [infeedDecision, hemp, hgen, hscan]⟩
    · intro hc
      have hdec : infeedDecision client opts computation = InfeedDecision.abortAmbiguous := by
        simp [infeedDecision, hemp, hgen,
          scanInfeed_of_count_ge_two (allInstructions computation) hc]
      have habort : (ReplayComputation client module opts).1 = ROutcome.abort := by
        simp [ReplayComputation, hload, hprov, hdec]
      exact ⟨habort, fun path => processFile_of_outcome_abort client opts path module habort⟩
  · intro hemp hgen
    simp [infeedDecision, hemp, hgen]
  · intro hdec
    simp [ReplayComputation, hload, hprov, hdec]

/-- A loaded computation with two infeed instructions. -/
def cexComp2 : Computation := ⟨[⟨[⟨"infeed", wShape⟩, ⟨"infeed", wShape⟩]⟩], 0⟩

/-- A client loading every snapshot to the two-infeed computation. -/
def cexClient2 : Client := { wClient with loadSnapshot := fun _ => Except.ok cexComp2 }

/-- Options requesting infeed-shape inference. -/
def wOptsGen : Options := { generate_fake_infeed := true }

/-- Counterexample to C2 as stated: on a program with two infeed
operations under shape inference, the replay does not stop only that
file — the fatal check aborts the whole process and a batch holding a
second file never reaches it. -/
theorem C2_streaming_decision_counterexample :
    (ReplayComputation cexClient2 wSnapshot wOptsGen).1 = ROutcome.abort ∧
    RealMain cexClient2 [("a", Except.ok wSnapshot), ("b", Except.ok wSnapshot)]
      wOptsGen = MainResult.aborted := by
  constructor
  · decide
  · decide

/-- A loaded computation with exactly one infeed instruction, in its
second computation. -/
def cexComp1 : Computation := ⟨[⟨[⟨"add", wShape⟩]⟩, ⟨[⟨"infeed", wShape⟩]⟩], 0⟩

/-- A client loading every snapshot to the one-infeed computation. -/
def cexClient1 : Client := { wClient with loadSnapshot := fun _ => Except.ok cexComp1 }

/-- Witness for C2: on the one-infeed program with inference requested,
the decision is a feed with that instruction's shape. -/
theorem C2_streaming_decision_witness :
    infeedDecision cexClient1 wOptsGen cexComp1 = InfeedDecision.feed wShape := by
  have h := C2_streaming_decision cexClient1 wOptsGen wSnapshot cexComp1 rfl [] rfl
  obtain ⟨-, hb, -, -⟩ := h
  obtain ⟨-, h1, -⟩ := hb rfl rfl
  obtain ⟨ins, hmem, hop, hdec⟩ := h1 (by decide)
  have hall : allInstructions cexComp1 =
      [⟨"add", wShape⟩, ⟨infeedOpcodeString, wShape⟩] := by decide
  rw [hall] at hmem
  simp at hmem
  rcases hmem with hmem | hmem
  · rw [hmem] at hop
    exact absurd hop (by decide)
  · rw [hmem] at hdec
    exact hdec

/-! ### C4 -/

/-- Default options. -/
def wOptsDefault : Options := {}

/-- Whether processing this file raises the failure exit status: its
snapshot was read successfully but its replay returned an error.  (A
snapshot-read failure does not set the failure status.) -/
def replayFailed (client : Client) (opts : Options) (f : FileInput) : Bool :=
  match f.2 with
  | .error _ => false
  | .ok s =>
    match (ReplayComputation client s opts).1 with
    | .error _ => true
    | _ => false

/-- The stdout lines contributed by one file. -/
def fileStdout (client : Client) (opts : Options) (f : FileInput) : List String :=
  match processFile client opts f with
  | none => []
  | some r => r.2.1

/-- The stderr lines contributed by one file. -/
def fileStderr (client : Client) (opts : Options) (f : FileInput) : List String :=
  match processFile client opts f with
  | none => []
  | some r => r.2.2

theorem processFile_fst (client : Client) (opts : Options) (f : FileInput)
    (r : Bool × List String × List String)
    (h : processFile client opts f = some r) :
    r.1 = replayFailed client opts f := by
  obtain ⟨path, read⟩ := f
  cases read with
  | error st => simp [processFile] at h; rw [← h]; simp [replayFailed]
  | ok snapshot =>
    cases hrc : ReplayComputation client snapshot opts with
    | mk o t =>
      cases o with
      | abort => simp [processFile, hrc] at h
      | error e => simp [processFile, hrc] at h; rw [← h]; simp [replayFailed, hrc]
      | ok res =>
        cases res with
        | none => simp [processFile, hrc] at h; rw [← h]; simp [replayFailed, hrc]
        | some lit =>
          cases hres : snapshot.result with
          | none =>
            simp [processFile, hrc, hres] at h
            rw [← h]
            simp [replayFailed, hrc]
          | some p =>
            cases hpl : p.lit with
            | none => simp [processFile, hrc, hres, hpl] at h
            | some l =>
              simp [processFile, hrc, hres, hpl] at h
              rw [← h]
              simp [replayFailed, hrc]

theorem mainLoop_finished (client : Client) (opts : Options) :
    ∀ (files : List FileInput),
      (∀ f ∈ files, processFile client opts f ≠ none) →
      ∀ e0, mainLoop client opts files e0 =
        MainResult.finished
          (if files.any (replayFailed client opts) then 1 else e0)
          ((files.map (fileStdout client opts)).flatten)
          ((files.map (fileStderr client opts)).flatten) := by
  intro files
  induction files with
  | nil => intro _ e0; simp [mainLoop]
  | cons f fs ih =>
    intro hna e0
    cases hpf : processFile client opts f with
    | none => exact absurd hpf (hna f (by simp))
    | some r =>
      have hfst := processFile_fst client opts f r hpf
      have hout : fileStdout client opts f = r.2.1 := by simp [fileStdout, hpf]
      have herr : fileStderr client opts f = r.2.2 := by simp [fileStderr, hpf]
      have hrec := ih (fun g hg => hna g (List.mem_cons_of_mem f hg)) (if r.1 then 1 else e0)
      simp only [mainLoop, hpf, hrec, List.map_cons, List.flatten_cons, List.any_cons,
        hout, herr]
      have hexit : (if fs.any (replayFailed client opts) then 1
            else if r.1 then 1 else e0) =
          (if (replayFailed client opts f || fs.any (replayFailed client opts)) then 1
            else e0) := by
        rw [hfst]
        cases h1 : replayFailed client opts f <;>
          cases h2 : fs.any (replayFailed client opts) <;> simp [h1, h2]
      rw [hexit]

theorem replayFailed_iff (client : Client) (opts : Options) (f : FileInput) :
    replayFailed client opts f = true ↔
      ∃ s, f.2 = Except.ok s ∧
        ∃ e, (ReplayComputation client s opts).1 = ROutcome.error e := by
  obtain ⟨path, read⟩ := f
  cases read with
  | error st => simp [replayFailed]
  | ok snapshot =>
    cases ho : (ReplayComputation client snapshot opts).1 with
    | abort => simp [replayFailed, ho]
    | error e =>
      simp only [replayFailed, ho]
      constructor
      · intro _
        exact ⟨snapshot, rfl, e, ho⟩
      · intro _
        trivial
    | ok res => simp [replayFailed, ho]

/-- C4 (amended): provided no file aborts the process, every file of the
batch is processed in order (their report and error lines are concatenated
across the whole batch), and the exit status is the failure code 1 exactly
when some file's snapshot was read successfully but its replay returned an
error; a file whose snapshot cannot be read prints an error line but does
not make the exit status a failure code. -/
theorem C4_batch_continues_and_exit_status
    (client : Client) (opts : Options) (files : List FileInput)
    (hna : ∀ f ∈ files, processFile client opts f ≠ none) :
    RealMain client files opts =
      MainResult.finished
        (if files.any (replayFailed client opts) then 1 else 0)
        ((files.map (fileStdout client opts)).flatten)
        ((files.map (fileStderr client opts)).flatten) ∧
    ((if files.any (replayFailed client opts) then 1 else 0) = 1 ↔
      ∃ f ∈ files, ∃ s, f.2 = Except.ok s ∧
        ∃ e, (ReplayComputation client s opts).1 = ROutcome.error e) := by
  constructor
  · exact mainLoop_finished client opts files hna 0
  · constructor
    · intro h
      by_cases hany : files.any (replayFailed client opts) = true
      · obtain ⟨f, hmem, hf⟩ := List.any_eq_true.mp hany
        exact ⟨f, hmem, (replayFailed_iff client opts f).mp hf⟩
      · rw [Bool.not_eq_true] at hany
        rw [hany] at h
        simp at h
    · intro h
      obtain ⟨f, hmem, hs⟩ := h
      have hany : files.any (replayFailed client opts) = true :=
        List.any_eq_true.mpr ⟨f, hmem, (replayFailed_iff client opts f).mpr hs⟩
      simp [hany]

/-- Counterexample to C4 as stated: a batch whose only file fails because
its snapshot cannot be read still finishes with the success exit status
0 — an unreadable-snapshot failure does not produce a failure exit code. -/
theorem C4_batch_continues_and_exit_status_counterexample :
    RealMain wClient [("bad", Except.error "unreadable")] wOptsDefault =
      MainResult.finished 0 [] ["bad: is not HloSnapshot: unreadable."] := by
  decide

/-- A snapshot whose module name makes the sample failing client reject
its load. -/
def badSnapshot : HloSnapshot := ⟨⟨⟨"bad"⟩⟩, [], none⟩

/-- A client that fails to load snapshots named `bad` and loads everything
else to the sample computation. -/
def c4Client : Client :=
  { wClient with
    loadSnapshot := fun s =>
      if s.hlo.hlo_module.name = "bad" then Except.error "load failed"
      else Except.ok wComp }

/-- Witness for C4 on a three-file batch (unreadable, replay failure,
success): all three are attempted and the exit status is 1. -/
theorem C4_batch_continues_and_exit_status_witness :
    RealMain c4Client
      [("u", Except.error "unreadable"), ("f", Except.ok badSnapshot),
       ("g", Except.ok wSnapshot)] wOptsDefault =
      MainResult.finished 1
        ["g: module_0 :: f32[2]:[1, 2]"]
        ["u: is not HloSnapshot: unreadable.", "f: error: load failed"] := by
  have h := C4_batch_continues_and_exit_status c4Client wOptsDefault
    [("u", Except.error "unreadable"), ("f", Except.ok badSnapshot),
     ("g", Except.ok wSnapshot)] (by decide)
  rw [h.1]
  decide

/-! ### C5 -/

theorem transferRecorded_length (client : Client) :
    ∀ (ps : List LiteralProto) (ds : List GlobalData),
      transferRecorded client ps = Except.ok ds → ds.length = ps.length := by
  intro ps
  induction ps with
  | nil =>
    intro ds h
    simp [transferRecorded] at h
    subst h
    rfl
  | cons p ps ih =>
    intro ds h
    cases hpl : p.lit with
    | none => simp [transferRecorded, hpl] at h
    | some l =>
      cases hts : client.transferToServer l with
      | error e => simp [transferRecorded, hpl, hts] at h
      | ok d =>
        cases hrec : transferRecorded client ps with
        | error e => simp [transferRecorded, hpl, hts, hrec] at h
        | ok ds2 =>
          simp [transferRecorded, hpl, hts, hrec] at h
          rw [← h]
          simp [ih ds2 hrec]

/-- C5 (amended): on the fake-data path provisioning returns exactly the
synthetic generator's handles — one per unbound parameter by the
generator's contract; on the recorded path it returns exactly one handle
per recorded argument, in order.  No comparison with the program's
declared parameter count is made anywhere: a count mismatch does not make
provisioning fail. -/
theorem C5_provisioning_no_count_check
    (client : Client) (opts : Options) (module : HloSnapshot) (computation : Computation)
    (hgen : (client.makeFakeArguments computation).length = computation.numParameters) :
    (opts.use_fake_data = true →
      provisionArguments client opts module computation =
        Except.ok (client.makeFakeArguments computation) ∧
      ∀ ds, provisionArguments client opts module computation = Except.ok ds →
        ds.length = computation.numParameters) ∧
    (opts.use_fake_data = false →
      ∀ ds, provisionArguments client opts module computation = Except.ok ds →
        ds.length = module.arguments.length) := by
  constructor
  · intro hf
    have he : provisionArguments client opts module computation =
        Except.ok (client.makeFakeArguments computation) := by
      simp [provisionArguments, hf]
    refine ⟨he, ?_⟩
    intro ds hds
    rw [he] at hds
    simp at hds
    rw [← hds]
    exact hgen
  · intro hf ds hds
    simp [provisionArguments, hf] at hds
    exact transferRecorded_length client module.arguments ds hds

/-- A loaded computation declaring one parameter. -/
def c5Comp : Computation := ⟨[⟨[⟨"add", wShape⟩]⟩], 1⟩

/-- A client loading every snapshot to the one-parameter computation. -/
def c5Client : Client := { wClient with loadSnapshot := fun _ => Except.ok c5Comp }

/-- Counterexample to C5 as stated: a snapshot with zero recorded
arguments against a program declaring one parameter provisions
successfully (no provisioning error of any kind) and execution is still
attempted. -/
theorem C5_provisioning_no_count_check_counterexample :
    provisionArguments c5Client wOptsDefault wSnapshot c5Comp = Except.ok [] ∧
    c5Comp.numParameters = 1 ∧
    wSnapshot.arguments.length = 0 ∧
    (ReplayComputation c5Client wSnapshot wOptsDefault).1 = ROutcome.ok (some wLitA) ∧
    (ReplayComputation c5Client wSnapshot wOptsDefault).2.executeRuns = [0] :=
  ⟨rfl, rfl, rfl, by decide, by decide⟩

/-- Witness for C5 on the fake-data path. -/
theorem C5_provisioning_no_count_check_witness :
    provisionArguments wClient wOptsFake wSnapshot wComp =
      Except.ok (wClient.makeFakeArguments wComp) :=
  ((C5_provisioning_no_count_check wClient wOptsFake wSnapshot wComp rfl).1 rfl).1

/-! ### C8 -/

/-- C8: when the replay of a file produces a final result value, that
file's report is the computed-result line (the output's shape and textual
rendering), followed by a `was` line (the recorded result's shape and
rendering) precisely when the snapshot records an expected result; the
file contributes a success status either way and no equality comparison
between computed and expected values is performed. -/
theorem C8_report_lines
    (client : Client) (opts : Options) (path : String) (module : HloSnapshot)
    (result : Literal) (t : ReplayTrace)
    (hrep : ReplayComputation client module opts = (ROutcome.ok (some result), t)) :
    (module.result = none →
      processFile client opts (path, Except.ok module) =
        some (false, [computedLine path module result], [])) ∧
    (∀ p l, module.result = some p → p.lit = some l →
      processFile client opts (path, Except.ok module) =
        some (false, [computedLine path module result, wasLine p l], [])) := by
  constructor
  · intro hres
    simp [processFile, hrep, hres]
  · intro p l hres hpl
    simp [processFile, hrep, hres, hpl]

/-- A second literal, with a different rendering than `wLitA`. -/
def wLitB : Literal := ⟨wShape, "[3, 4]"⟩

/-- A snapshot recording an expected result (different from what the
sample client computes). -/
def c8Snapshot : HloSnapshot := ⟨⟨⟨"module_0"⟩⟩, [], some ⟨wShape, some wLitB⟩⟩

/-- Witness for C8: the report holds both the computed line and the `was`
line, with success status, although computed and expected values differ. -/
theorem C8_report_lines_witness :
    processFile wClient wOptsDefault ("a", Except.ok c8Snapshot) =
      some (false, ["a: module_0 :: f32[2]:[1, 2]", "was f32[2]:[3, 4]"], []) := by
  have h := C8_report_lines wClient wOptsDefault "a" c8Snapshot wLitA
    { executeRuns := [0] } (by decide)
  have h2 := h.2 ⟨wShape, some wLitB⟩ wLitB rfl rfl
  rw [h2]
  rfl

end ReplayTool
